import Mathlib

/-!
Shallow embedding of the order-management core in `src/OMS/binance_oms.py`
(class `Binance`), together with theorems checking the specification's
claims about it.  Machine floats are modelled as exact rationals; Python
exceptions are modelled with `Except`; the exchange gateway
(`binance.client.Client`) is a record of response functions.
-/

/-- Python `str.upper()` (ASCII behaviour, which is all the source uses):
uppercase every character. -/
def pyUpper (s : String) : String := String.mk (s.data.map Char.toUpper)

/-- Python truthiness of an optional float parameter: `None` and `0.0` are
falsy, every other value is truthy (used by `if percentage:`,
`and quantity`, `quantity if quantity else ...`, `if price:`). -/
def pyTruthy : Option ℚ → Bool
  | none => false
  | some x => x != 0

/-- Predicate `beginsWith n h` is true when `n` is an initial segment of `h`
(helper for the Python `in` substring test). -/
def beginsWith : List Char → List Char → Bool
  | [], _ => true
  | _ :: _, [] => false
  | c :: cs, d :: ds => c == d && beginsWith cs ds

/-- Predicate `hasSub needle hay` models Python `needle in hay` on strings. -/
def hasSub (needle : List Char) : List Char → Bool
  | [] => beginsWith needle []
  | c :: cs => beginsWith needle (c :: cs) || hasSub needle cs

/-- Python `round` to the nearest integer, ties to even (banker's
rounding).  For a rational with fractional part `1/2` the result is the
nearest even integer; otherwise it is the nearest integer. -/
def rhe (y : ℚ) : ℤ :=
  if Int.fract y = 1 / 2 then 2 * round (y / 2) else round y

/-- Python `round(x, nd)`: round to `nd` decimal places, ties to even
(exact-arithmetic model of the float builtin). -/
def pyRound (x : ℚ) (nd : ℤ) : ℚ :=
  (rhe (x * (10 : ℚ) ^ nd) : ℚ) / (10 : ℚ) ^ nd

/-- Python `round(math.log10 s)` for a positive rational `s`, computed
exactly: `round (log10 s) = ⌊(⌊log10 (10 * s^2)⌋) / 2⌋` (a tie
`log10 s = n + 1/2` is impossible for rational `s`, so nearest = half-even
here).  `Int.log 10` is Mathlib's `⌊log10 ·⌋` on rationals. -/
def roundLog10 (s : ℚ) : ℤ :=
  Int.fdiv (Int.log 10 (10 * s ^ 2)) 2

/-- The rounding applied by `place_futures_order` (src/OMS/binance_oms.py
lines 93-96) to quantities (with `s` = stepSize) and prices (with `s` =
tickSize):
`round(v // s * s, int(-1 * round(math.log10(s))))`. -/
def roundStep (v s : ℚ) : ℚ :=
  pyRound ((⌊v / s⌋ : ℚ) * s) (-(roundLog10 s))

/-- Mathlib's `Int.log 10` is determined by the zpow squeeze `10^z ≤ r < 10^(z+1)`. -/
theorem intLog10_eq_of {r : ℚ} {z : ℤ} (hr : 0 < r)
    (h1 : (10 : ℚ) ^ z ≤ r) (h2 : r < (10 : ℚ) ^ (z + 1)) :
    Int.log 10 r = z := by
  have hb : 1 < 10 := by norm_num
  have hcast : ((10 : ℕ) : ℚ) = (10 : ℚ) := by norm_num
  have hlz : ∀ w : ℤ, Int.log 10 ((10 : ℚ) ^ w) = w := by
    intro w
    have h := Int.log_zpow (R := ℚ) (b := 10) hb w
    rwa [hcast] at h
  have hlo : z ≤ Int.log 10 r := by
    have h : Int.log 10 ((10 : ℚ) ^ z) ≤ Int.log 10 r :=
      Int.log_mono_right (zpow_pos (by norm_num) z) h1
    rwa [hlz z] at h
  have hhi : Int.log 10 r ≤ z := by
    by_contra hcon
    push_neg at hcon
    have hz1 : z + 1 ≤ Int.log 10 r := hcon
    have h10 : (10 : ℚ) ^ (z + 1) ≤ (10 : ℚ) ^ (Int.log 10 r) :=
      zpow_le_zpow_right₀ (by norm_num) hz1
    have hself : ((10 : ℕ) : ℚ) ^ Int.log 10 r ≤ r :=
      Int.zpow_log_le_self hb hr
    rw [hcast] at hself
    linarith
  omega

/-- Function `roundLog10` is exact on integer powers of ten. -/
theorem roundLog10_zpow (z : ℤ) : roundLog10 ((10 : ℚ) ^ z) = z := by
  unfold roundLog10
  have hcast : ((10 : ℕ) : ℚ) = (10 : ℚ) := by norm_num
  have h1 : (10 : ℚ) * ((10 : ℚ) ^ z) ^ 2 = (10 : ℚ) ^ (2 * z + 1) := by
    rw [← zpow_natCast ((10 : ℚ) ^ z) 2, ← zpow_mul]
    rw [show ((2 : ℕ) : ℤ) = 2 from rfl]
    rw [mul_comm z 2, zpow_add₀ (by norm_num : (10 : ℚ) ≠ 0)]
    ring
  have hlz : Int.log 10 ((10 : ℚ) ^ (2 * z + 1)) = 2 * z + 1 := by
    have h := Int.log_zpow (R := ℚ) (b := 10) (by norm_num) (2 * z + 1)
    rwa [hcast] at h
  rw [h1, hlz, Int.fdiv_eq_ediv _ (by norm_num : (0 : ℤ) ≤ 2)]
  omega

/-- On an integer power of ten, the whole rounding pipeline collapses to
flooring to a multiple of the step. -/
theorem roundStep_zpow (z : ℤ) (q : ℚ) :
    roundStep q ((10 : ℚ) ^ z) = (⌊q / (10 : ℚ) ^ z⌋ : ℚ) * (10 : ℚ) ^ z := by
  unfold roundStep pyRound rhe
  rw [roundLog10_zpow]
  have hmul : (⌊q / (10 : ℚ) ^ z⌋ : ℚ) * (10 : ℚ) ^ z * (10 : ℚ) ^ (-z)
      = (⌊q / (10 : ℚ) ^ z⌋ : ℚ) := by
    rw [mul_assoc, ← zpow_add₀ (by norm_num : (10 : ℚ) ≠ 0)]
    simp
  rw [hmul, Int.fract_intCast, if_neg (by norm_num), round_intCast]
  rw [div_eq_iff (zpow_ne_zero (-z) (by norm_num : (10 : ℚ) ≠ 0))]
  rw [mul_assoc, ← zpow_add₀ (by norm_num : (10 : ℚ) ≠ 0)]
  simp

/-! ### Data model

Order confirmations from the gateway are opaque payloads; we model them by
a natural number id.  `BinanceAPIException` carries only its message here,
modelled as a `String` in the `Except` error position. -/

abbrev Order := ℕ

/-- Uncaught Python exceptions the embedded code can raise:
`ValueError` (symbol not found in exchange info) and `ZeroDivisionError`
(division or floor-division by `0.0`). -/
inductive PyExc where
  | valueError
  | zeroDivision
deriving DecidableEq

/-- A row of the batch-order DataFrame (`Symbol, Side, Size, Price`). -/
structure Row where
  Symbol : String
  Side : String
  Size : ℚ
  Price : ℚ
deriving DecidableEq

/-- Keyword arguments passed to `client.create_order` by `place_order`. -/
structure SpotParams where
  symbol : String
  side : String
  type : String
  quantity : ℚ
  timeInForce : Option String
  price : Option ℚ
deriving DecidableEq

/-- Keyword arguments passed to `client.futures_create_order`. -/
structure FutParams where
  symbol : String
  side : String
  type : String
  quantity : ℚ
  price : Option ℚ
  timeInForce : Option String
  reduceOnly : Bool
deriving DecidableEq

/-- The fields of one entry of `futures_exchange_info()['symbols']` that
the source reads: the symbol name, `filters[2]['stepSize']` and
`filters[0]['tickSize']`. -/
structure SymbolInfo where
  symbol : String
  stepSize : ℚ
  tickSize : ℚ
deriving DecidableEq

/-- The fields of one entry of `futures_account()['positions']` that
`close_futures_positions` reads. -/
structure FutPosition where
  symbol : String
  positionAmt : ℚ
deriving DecidableEq

/-- The dict appended to `self.failed_orders` by `place_order`
(src/OMS/binance_oms.py lines 68-74): original call arguments plus the
raw error text. -/
structure SpotFail where
  symbol : String
  side : String
  size : ℚ
  price : ℚ
  error : String
deriving DecidableEq

/-- The dict appended to `self.failed_orders` by `place_futures_order`
(lines 119-125): the current values of the (rebound) `quantity` and
`price` locals plus the raw error text. -/
structure FutFail where
  symbol : String
  side : String
  quantity : ℚ
  price : Option ℚ
  error : String
deriving DecidableEq

/-- List `self.failed_orders` holds dicts of either shape. -/
inductive FailEntry where
  | spot (f : SpotFail)
  | fut (f : FutFail)
deriving DecidableEq

/-- The instance state of `Binance` touched by the order methods:
`self.successful_orders` and `self.failed_orders` (initialised to `[]`
in `__init__`, lines 30-31). -/
structure OMSState where
  successful_orders : List Order
  failed_orders : List FailEntry
deriving DecidableEq

/-- Entry of `failed_closes` in `close_futures_positions` (line 273). -/
structure CloseFailRec where
  symbol : String
  error : String
deriving DecidableEq

/-- Entry of `unclosable_positions` (lines 260-264). -/
structure UnclosableRec where
  symbol : String
  notional : ℚ
  error : String
deriving DecidableEq

/-- The exchange gateway (`binance.client.Client`) as consumed by the
embedded methods.  Fallible calls return `Except String` where the error
is the `BinanceAPIException` message; `futures_exchange_info` is modelled
by its (successful) response payload. -/
structure Gateway where
  create_order : SpotParams → Except String Order
  futures_create_order : FutParams → Except String Order
  futures_exchange_info : List SymbolInfo
  futures_mark_price : String → Except String ℚ
  futures_account : Except String (List FutPosition)
  futures_change_leverage : String → ℤ → Except String Order

/-! ### Order placement (`place_order`, `iterate_orders_df`) -/

/-- The `order_params` dict built by `place_order` (lines 49-60):
`timeInForce='GTC'` and `price` are added only for LIMIT orders. -/
def spotParamsOf (symbol side : String) (size price : ℚ)
    (order_type : String) : SpotParams :=
  let base : SpotParams :=
    { symbol := symbol, side := pyUpper side, type := pyUpper order_type
      quantity := size, timeInForce := none, price := none }
  if pyUpper order_type == "LIMIT" then
    { base with timeInForce := some "GTC", price := some price }
  else base

/-- Method `Binance.place_order` (lines 47-75): submit one spot order, appending
the confirmation to `self.successful_orders` on success and a failure dict
(with the original call arguments and the raw error text) to
`self.failed_orders` on `BinanceAPIException`. -/
def place_order (gw : Gateway) (st : OMSState) (symbol side : String)
    (size price : ℚ) (order_type : String) : OMSState :=
  match gw.create_order (spotParamsOf symbol side size price order_type) with
  | .ok order =>
      { st with successful_orders := st.successful_orders ++ [order] }
  | .error e =>
      { st with failed_orders := st.failed_orders ++
          [.spot { symbol := symbol, side := side, size := size
                   price := price, error := e }] }

/-- Method `Binance.iterate_orders_df` (lines 33-45): iterate the rows of the
orders DataFrame, calling `place_order` with the default
`order_type='MARKET'` on each, then return
`(self.successful_orders, self.failed_orders)`; an empty frame returns
`([], [])` without touching the instance lists. -/
def iterate_orders_df (gw : Gateway) (st : OMSState) (orders : List Row) :
    OMSState × (List Order × List FailEntry) :=
  if orders.isEmpty then (st, ([], []))
  else
    let st' := orders.foldl
      (fun s r => place_order gw s r.Symbol r.Side r.Size r.Price "MARKET") st
    (st', (st'.successful_orders, st'.failed_orders))

/-! ### Futures order placement (`place_futures_order`) -/

/-- The `params` dict built for `futures_create_order` (lines 99-107). -/
def futParamsOf (symbol side : String) (quantity : ℚ) (price : Option ℚ)
    (order_type : String) : FutParams :=
  let base : FutParams :=
    { symbol := pyUpper symbol, side := pyUpper side
      type := pyUpper order_type, quantity := quantity
      price := none, timeInForce := none, reduceOnly := false }
  if pyUpper order_type == "LIMIT" then
    { base with price := price, timeInForce := some "GTC" }
  else base

/-- Final stage of `place_futures_order` (lines 110-127): submit the
futures order; on `BinanceAPIException` append a failure dict holding the
current (already converted and rounded) `quantity` and `price` locals and
return `None`. -/
def submitFut (gw : Gateway) (st : OMSState) (symbol side : String)
    (quantity : ℚ) (price : Option ℚ) (order_type : String) :
    Except PyExc (OMSState × Option Order) :=
  match gw.futures_create_order (futParamsOf symbol side quantity price order_type) with
  | .ok order =>
      .ok ({ st with successful_orders := st.successful_orders ++ [order] },
        some order)
  | .error e =>
      .ok ({ st with failed_orders := st.failed_orders ++
          [.fut { symbol := symbol, side := side, quantity := quantity
                  price := price, error := e }] }, none)

/-- Rounding stage of `place_futures_order` (lines 93-96): floor-round the
quantity to the step size and, when `price` is truthy, the price to the
tick size; a zero step or tick makes Python's `//` raise
`ZeroDivisionError` (evaluated left to right, before `math.log10`). -/
def roundFut (gw : Gateway) (st : OMSState) (symbol side : String)
    (quantity : ℚ) (price : Option ℚ) (order_type : String)
    (step_size tick_size : ℚ) : Except PyExc (OMSState × Option Order) :=
  if step_size = 0 then .error .zeroDivision
  else
    let q2 := roundStep quantity step_size
    if pyTruthy price then
      if tick_size = 0 then .error .zeroDivision
      else
        submitFut gw st symbol side q2
          (some (roundStep ((price.getD 0)) tick_size)) order_type
    else submitFut gw st symbol side q2 price order_type

/-- The value of the `price` local after the rounding stage (lines 95-96):
tick-size floor-rounded when `price` is truthy, otherwise left as passed
(`None` or `0.0`). -/
def roundPrice (price : Option ℚ) (tick_size : ℚ) : Option ℚ :=
  if pyTruthy price then some (roundStep (price.getD 0) tick_size) else price

/-- Method `Binance.place_futures_order` (lines 77-127): look up the instrument
filters (raising `ValueError` when the symbol is absent, line 87), convert
a `USD` quantity through the mark price (lines 89-91; a
`BinanceAPIException` from the mark-price call is caught by the method's
handler with `quantity`/`price` still unmutated), round (lines 93-96) and
submit (lines 99-127). -/
def place_futures_order (gw : Gateway) (st : OMSState) (symbol side : String)
    (quantity : ℚ) (price : Option ℚ) (order_type quantity_type : String) :
    Except PyExc (OMSState × Option Order) :=
  match gw.futures_exchange_info.find? (fun info => info.symbol == pyUpper symbol) with
  | none => .error .valueError
  | some info =>
    if pyUpper quantity_type == "USD" then
      match gw.futures_mark_price symbol with
      | .error e =>
          .ok ({ st with failed_orders := st.failed_orders ++
              [.fut { symbol := symbol, side := side, quantity := quantity
                      price := price, error := e }] }, none)
      | .ok mark_price =>
          if mark_price = 0 then .error .zeroDivision
          else
            roundFut gw st symbol side (quantity / mark_price) price order_type
              info.stepSize info.tickSize
    else
      roundFut gw st symbol side quantity price order_type
        info.stepSize info.tickSize

/-- Method `Binance.change_leverage` (lines 129-147): a single pass-through call
to `client.futures_change_leverage`; no local validation of the leverage
value, `None` on `BinanceAPIException`. -/
def change_leverage (gw : Gateway) (symbol : String) (leverage : ℤ) :
    Option Order :=
  match gw.futures_change_leverage symbol leverage with
  | .ok response => some response
  | .error _ => none

/-! ### Position closing (`close_futures_positions`) -/

/-- The substring that `close_futures_positions` tests on the caught
`BinanceAPIException` (line 259) to recognise the notional-too-small
rejection class. -/
def notionalErrText : String := "notional must be no smaller than 5"

/-- The literal recorded in the `unclosable_positions` entry (line 263). -/
def unclosableErrText : String := "Notional value too small to close."

/-- The `close_quantity` computation (lines 222-227), with Python truthiness:
`percentage` first, then `quantity` interpreted in USD when
`quantity_type.upper() == 'USD'`, then `quantity` as contracts, defaulting
to the full `abs(position_amt)`. -/
def closeQuantity (quantity : Option ℚ) (quantity_type : String)
    (percentage : Option ℚ) (position_amt mark_price : ℚ) : ℚ :=
  if pyTruthy percentage then
    |position_amt| * (percentage.getD 0 / 100)
  else if pyUpper quantity_type == "USD" && pyTruthy quantity then
    quantity.getD 0 / mark_price
  else if pyTruthy quantity then quantity.getD 0
  else |position_amt|

/-- The arguments of the reduce-only close order for one position
(lines 232-252; the `notional_value < 5` branch and its else branch build
the identical call, so they are modelled as one submission). -/
def closeParamsOf (pos : FutPosition) (close_quantity : ℚ) : FutParams :=
  { symbol := pos.symbol
    side := if pos.positionAmt > 0 then "SELL" else "BUY"
    type := "MARKET", quantity := close_quantity
    price := none, timeInForce := none, reduceOnly := true }

/-- The `for position in positions:` loop of `close_futures_positions`
(lines 210-273).  The mark-price fetch (line 217) sits outside the inner
`try`, so its `BinanceAPIException` propagates out of the loop (modelled
by the `Except` error); a `BinanceAPIException` from the close order is
caught per position and classified into `unclosable_positions` or
`failed_closes` by the substring test on the message. -/
def closeLoop (gw : Gateway) (quantity : Option ℚ) (quantity_type : String)
    (percentage : Option ℚ) :
    List FutPosition → List Order → List CloseFailRec → List UnclosableRec →
    Except String (List Order × List CloseFailRec × List UnclosableRec)
  | [], succ, failed, uncl => .ok (succ, failed, uncl)
  | pos :: rest, succ, failed, uncl =>
    if pos.positionAmt = 0 then
      closeLoop gw quantity quantity_type percentage rest succ failed uncl
    else
      match gw.futures_mark_price pos.symbol with
      | .error e => .error e
      | .ok mark_price =>
        let notional_value := |pos.positionAmt * mark_price|
        let close_quantity :=
          closeQuantity quantity quantity_type percentage pos.positionAmt mark_price
        match gw.futures_create_order (closeParamsOf pos close_quantity) with
        | .ok order =>
            closeLoop gw quantity quantity_type percentage rest
              (succ ++ [order]) failed uncl
        | .error e =>
            if hasSub notionalErrText.toList e.toList then
              closeLoop gw quantity quantity_type percentage rest succ failed
                (uncl ++ [{ symbol := pos.symbol, notional := notional_value
                            error := unclosableErrText }])
            else
              closeLoop gw quantity quantity_type percentage rest succ
                (failed ++ [{ symbol := pos.symbol, error := e }]) uncl

/-- Method `Binance.close_futures_positions` (lines 185-287): fetch the account
positions, filter by the optional symbol, sweep the loop, and return the
three lists; any `BinanceAPIException` escaping the loop (account fetch or
a mark-price fetch) is caught by the outer handler, which returns
`(None, None, None)` (lines 283-285). -/
def close_futures_positions (gw : Gateway) (symbol : Option String)
    (quantity : Option ℚ) (quantity_type : String) (percentage : Option ℚ) :
    Option (List Order) × Option (List CloseFailRec) × Option (List UnclosableRec) :=
  match gw.futures_account with
  | .error _ => (none, none, none)
  | .ok positions =>
    let positions := match symbol with
      | some s => positions.filter (fun pos => pos.symbol == pyUpper s)
      | none => positions
    match closeLoop gw quantity quantity_type percentage positions [] [] [] with
    | .error _ => (none, none, none)
    | .ok (succ, failed, uncl) => (some succ, some failed, some uncl)

/-! ### Claim C1 -/

/-- Evaluation of the rounding pipeline at step size `0.07`, quantity
`0.07`: the trailing decimal `round` (whose digit count comes from
`round(log10 0.07) = -1`) rounds `0.07` up to `0.1`. -/
theorem roundStep_at_007 : roundStep (7 / 100) (7 / 100) = 1 / 10 := by
  have hlog : roundLog10 (7 / 100) = -1 := by
    unfold roundLog10
    have hl : Int.log 10 (10 * (7 / 100 : ℚ) ^ 2) = -2 := by
      have he : (10 * (7 / 100 : ℚ) ^ 2) = 49 / 1000 := by norm_num
      rw [he]
      apply intLog10_eq_of (by norm_num)
      · rw [show ((-2 : ℤ)) = -(2 : ℤ) from rfl, zpow_neg]
        norm_num
      · norm_num
    rw [hl]
    decide
  unfold roundStep
  rw [hlog]
  have hfl : (⌊(7 / 100 : ℚ) / (7 / 100)⌋ : ℚ) * (7 / 100) = 7 / 100 := by
    norm_num
  rw [hfl]
  unfold pyRound rhe
  have he1 : (7 / 100 : ℚ) * (10 : ℚ) ^ (-(-1 : ℤ)) = 7 / 10 := by
    norm_num
  rw [he1]
  rw [if_neg (by norm_num [Int.fract] : ¬ Int.fract (7 / 10 : ℚ) = 1 / 2)]
  rw [show round (7 / 10 : ℚ) = 1 from by norm_num [round_eq]]
  norm_num

/-- C1 counterexample: the claim quantifies over *every* step size `s > 0`,
but at `s = 0.07`, `q = 0.07` the submitted quantity is `0.1`, which
exceeds `q` (and is not an integer multiple of `s`), because the trailing
decimal `round` uses `-round(log10 s)` digits and re-rounds upward when
`s` is not a power of ten. -/
theorem C1_counterexample :
    ¬ (roundStep (7 / 100) (7 / 100) ≤ 7 / 100 ∧
       ∃ m : ℤ, roundStep (7 / 100) (7 / 100) = (m : ℚ) * (7 / 100)) := by
  rintro ⟨hle, -⟩
  rw [roundStep_at_007] at hle
  norm_num at hle

/-- C1 (amended): for every step size that is an integer power of ten —
which covers every Binance `stepSize`/`tickSize` filter shape — and every
raw value `q`, the rounding performed before order submission
(`roundStep`, used for quantities with stepSize and prices with tickSize)
yields a value that is at most `q` and an exact integer multiple of the
step. -/
theorem C1_theorem (z : ℤ) (q : ℚ) :
    roundStep q ((10 : ℚ) ^ z) ≤ q ∧
    ∃ m : ℤ, roundStep q ((10 : ℚ) ^ z) = (m : ℚ) * (10 : ℚ) ^ z := by
  rw [roundStep_zpow]
  constructor
  · have hpos : (0 : ℚ) < (10 : ℚ) ^ z := zpow_pos (by norm_num) z
    have hle : (⌊q / (10 : ℚ) ^ z⌋ : ℚ) ≤ q / (10 : ℚ) ^ z := Int.floor_le _
    calc (⌊q / (10 : ℚ) ^ z⌋ : ℚ) * (10 : ℚ) ^ z
        ≤ (q / (10 : ℚ) ^ z) * (10 : ℚ) ^ z :=
          mul_le_mul_of_nonneg_right hle (le_of_lt hpos)
      _ = q := div_mul_cancel₀ q (ne_of_gt hpos)
  · exact ⟨⌊q / (10 : ℚ) ^ z⌋, rfl⟩

/-! ### Claim C2 -/

/-- C2: when the gateway rejects the close order for a position, the
outcome is classified by the notional-too-small substring test on the
raw error message: a matching rejection is recorded in
`unclosable_positions` (with the symbol and the notional value) and
anything else in `failed_closes`; exactly one of the two lists is
extended, so the classes are never conflated, and the sweep continues
with the remaining positions either way. -/
theorem C2_theorem (gw : Gateway) (quantity : Option ℚ)
    (quantity_type : String) (percentage : Option ℚ) (pos : FutPosition)
    (rest : List FutPosition) (succ : List Order) (failed : List CloseFailRec)
    (uncl : List UnclosableRec) (mark : ℚ) (e : String)
    (hamt : ¬ pos.positionAmt = 0)
    (hmark : gw.futures_mark_price pos.symbol = .ok mark)
    (horder : gw.futures_create_order (closeParamsOf pos
      (closeQuantity quantity quantity_type percentage pos.positionAmt mark))
      = .error e) :
    closeLoop gw quantity quantity_type percentage (pos :: rest) succ failed uncl =
      if hasSub notionalErrText.toList e.toList then
        closeLoop gw quantity quantity_type percentage rest succ failed
          (uncl ++ [{ symbol := pos.symbol
                      notional := |pos.positionAmt * mark|
                      error := unclosableErrText }])
      else
        closeLoop gw quantity quantity_type percentage rest succ
          (failed ++ [{ symbol := pos.symbol, error := e }]) uncl := by
  simp only [closeLoop, if_neg hamt, hmark, horder]

/-- Gateway fixture for the C2 witness: every close order is rejected with
exactly the notional-too-small message, mark price 3. -/
def gwC2 : Gateway where
  create_order := fun _ => .ok 0
  futures_create_order := fun _ => .error notionalErrText
  futures_exchange_info := []
  futures_mark_price := fun _ => .ok 3
  futures_account := .ok [⟨"X", 1⟩]
  futures_change_leverage := fun _ _ => .ok 0

/-- C2 witness: a position of amount 1 at mark price 3 (notional 3 < 5)
whose close order is rejected with the notional-too-small message is
classified as unclosable, not failed. -/
theorem C2_witness :
    closeLoop gwC2 none "CONTRACTS" none [⟨"X", 1⟩] [] [] [] =
      .ok ([], [], [{ symbol := "X", notional := 3
                      error := unclosableErrText }]) := by
  have h := C2_theorem gwC2 none "CONTRACTS" none ⟨"X", 1⟩ [] [] [] []
    3 notionalErrText (by norm_num) rfl rfl
  rw [h, if_pos (by decide)]
  simp only [closeLoop]
  norm_num

/-- Decidable equality of gateway responses (used only by `decide` in
concrete witnesses). -/
instance {ε α : Type} [DecidableEq ε] [DecidableEq α] :
    DecidableEq (Except ε α) := fun a b =>
  match a, b with
  | .ok x, .ok y =>
      if h : x = y then isTrue (by rw [h]) else isFalse (by simp [h])
  | .error x, .error y =>
      if h : x = y then isTrue (by rw [h]) else isFalse (by simp [h])
  | .ok _, .error _ => isFalse (by simp)
  | .error _, .ok _ => isFalse (by simp)

/-! ### Claim C3 -/

/-- Gateway fixture whose spot orders always succeed with confirmation 7. -/
def gwOkAll : Gateway where
  create_order := fun _ => .ok 7
  futures_create_order := fun _ => .ok 7
  futures_exchange_info := []
  futures_mark_price := fun _ => .ok 1
  futures_account := .ok []
  futures_change_leverage := fun _ _ => .ok 7

/-- C3 (the code as written): `successful_orders`/`failed_orders` live on
the instance, so on one `Binance` instance a second `iterate_orders_df`
call over a single row returns two successes — the first call's outcome
leaks into the second call's result, i.e. accumulation is
instance-scoped, not per-call-scoped. -/
theorem C3_theorem :
    (iterate_orders_df gwOkAll
      (iterate_orders_df gwOkAll ⟨[], []⟩
        [{ Symbol := "BTCUSDT", Side := "BUY", Size := 1, Price := 0 }]).1
      [{ Symbol := "ETHUSDT", Side := "SELL", Size := 2, Price := 0 }]).2.1
    = [7, 7] := rfl

/-! ### Claim C4 -/

/-- The gateway response for one batch row (rows are submitted with the
default `order_type='MARKET'`). -/
def spotResult (gw : Gateway) (r : Row) : Except String Order :=
  gw.create_order (spotParamsOf r.Symbol r.Side r.Size r.Price "MARKET")

/-- The failure entry a batch row contributes, if any. -/
def spotFailPart (gw : Gateway) (r : Row) : Option FailEntry :=
  match spotResult gw r with
  | .ok _ => none
  | .error e =>
      some (.spot { symbol := r.Symbol, side := r.Side, size := r.Size
                    price := r.Price, error := e })

/-- Unrolling the batch loop: the instance lists after the loop are the
initial lists extended, in input order, with each row's contribution. -/
theorem foldl_place_order (gw : Gateway) (rows : List Row) (st : OMSState) :
    rows.foldl
      (fun s r => place_order gw s r.Symbol r.Side r.Size r.Price "MARKET") st =
      { successful_orders := st.successful_orders ++
          rows.filterMap (fun r => (spotResult gw r).toOption)
        failed_orders := st.failed_orders ++ rows.filterMap (spotFailPart gw) } := by
  induction rows generalizing st with
  | nil => simp
  | cons r rs ih =>
    simp only [List.foldl_cons, ih, List.filterMap_cons]
    unfold place_order spotFailPart
    cases h : spotResult gw r with
    | ok o =>
        unfold spotResult at h
        simp [h, Except.toOption, spotResult]
    | error e =>
        unfold spotResult at h
        simp [h, Except.toOption, spotResult]

/-- C4: batch placement is failure-isolated.  For a batch in which exactly
one row (`bad`) draws a gateway trading error and every other row
succeeds, every row after the failing one is still attempted, and a fresh
instance's result carries exactly one failure entry — the failing row with
its raw error — and the successes of all other rows in input order. -/
theorem C4_theorem (gw : Gateway) (pre post : List Row) (bad : Row) (e : String)
    (hpre : ∀ r ∈ pre, (spotResult gw r).toOption.isSome = true)
    (hpost : ∀ r ∈ post, (spotResult gw r).toOption.isSome = true)
    (hbad : spotResult gw bad = .error e) :
    (iterate_orders_df gw ⟨[], []⟩ (pre ++ bad :: post)).2 =
      ((pre ++ post).filterMap (fun r => (spotResult gw r).toOption),
       [.spot { symbol := bad.Symbol, side := bad.Side, size := bad.Size
                price := bad.Price, error := e }]) := by
  have hnil : ∀ r ∈ pre ++ post, spotFailPart gw r = none := by
    intro r hr
    unfold spotFailPart
    rcases List.mem_append.mp hr with h | h
    · cases hres : spotResult gw r with
      | ok o => simp
      | error e' => have := hpre r h; rw [hres] at this; simp [Except.toOption] at this
    · cases hres : spotResult gw r with
      | ok o => simp
      | error e' => have := hpost r h; rw [hres] at this; simp [Except.toOption] at this
  unfold iterate_orders_df
  rw [if_neg (by simp)]
  rw [foldl_place_order]
  simp only [List.nil_append]
  rw [Prod.mk.injEq]
  constructor
  · rw [List.filterMap_append, List.filterMap_append, List.filterMap_cons]
    rw [hbad]
    simp [Except.toOption]
  · rw [List.filterMap_append, List.filterMap_cons]
    have h1 : pre.filterMap (spotFailPart gw) = [] :=
      List.filterMap_eq_nil_iff.mpr (fun r hr => hnil r (List.mem_append.mpr (.inl hr)))
    have h2 : post.filterMap (spotFailPart gw) = [] :=
      List.filterMap_eq_nil_iff.mpr (fun r hr => hnil r (List.mem_append.mpr (.inr hr)))
    rw [h1, h2]
    unfold spotFailPart
    rw [hbad]
    simp

/-- Gateway fixture for the C4 witness: rejects exactly the symbol `BAD`. -/
def gwC4 : Gateway where
  create_order := fun p => if p.symbol == "BAD" then .error "boom" else .ok 5
  futures_create_order := fun _ => .ok 5
  futures_exchange_info := []
  futures_mark_price := fun _ => .ok 1
  futures_account := .ok []
  futures_change_leverage := fun _ _ => .ok 5

/-- C4 witness: in a three-row batch whose middle row is rejected, the
third row is still attempted; the result is two successes and exactly one
failure, for the middle row. -/
theorem C4_witness :
    (iterate_orders_df gwC4 ⟨[], []⟩
      ([{ Symbol := "A", Side := "BUY", Size := 1, Price := 0 }] ++
        { Symbol := "BAD", Side := "SELL", Size := 2, Price := 0 } ::
        [{ Symbol := "C", Side := "BUY", Size := 3, Price := 0 }])).2 =
      ([5, 5],
       [.spot { symbol := "BAD", side := "SELL", size := 2, price := 0
                error := "boom" }]) := by
  have h := C4_theorem gwC4
    [{ Symbol := "A", Side := "BUY", Size := 1, Price := 0 }]
    [{ Symbol := "C", Side := "BUY", Size := 3, Price := 0 }]
    { Symbol := "BAD", Side := "SELL", Size := 2, Price := 0 } "boom"
    (by intro r hr; simp at hr; subst hr; decide)
    (by intro r hr; simp at hr; subst hr; decide)
    (by decide)
  exact h.trans (by decide)

/-! ### Claim C5 -/

/-- Gateway fixture for the C5 counterexample: two open positions, and the
mark-price endpoint fails for the first symbol only. -/
def gwC5 : Gateway where
  create_order := fun _ => .ok 9
  futures_create_order := fun _ => .ok 9
  futures_exchange_info := []
  futures_mark_price := fun s => if s == "AAA" then .error "mark down" else .ok 10
  futures_account := .ok [⟨"AAA", 1⟩, ⟨"BBB", 1⟩]
  futures_change_leverage := fun _ _ => .ok 9

/-- C5 counterexample: with open positions AAA and BBB, a gateway error in
the per-position mark-price fetch for AAA makes the whole sweep return
`(None, None, None)` — position BBB is never attempted and receives no
classification, refuting the claim that a per-position gateway error
never prevents the remaining positions from being attempted and
classified. -/
theorem C5_counterexample :
    close_futures_positions gwC5 none none "CONTRACTS" none =
      (none, none, none) := by decide

/-- C5 (amended): failure isolation holds only for the close-order
submission — a gateway rejection of one position's close order extends
the per-position records and the loop continues with the remaining
positions — whereas a gateway error in the per-position mark-price fetch
(which sits outside the per-position handler) propagates and aborts the
sweep. -/
theorem C5_theorem :
    (∀ (gw : Gateway) (quantity : Option ℚ) (quantity_type : String)
       (percentage : Option ℚ) (pos : FutPosition) (rest : List FutPosition)
       (succ : List Order) (failed : List CloseFailRec)
       (uncl : List UnclosableRec) (mark : ℚ) (e : String),
       ¬ pos.positionAmt = 0 →
       gw.futures_mark_price pos.symbol = .ok mark →
       gw.futures_create_order (closeParamsOf pos
         (closeQuantity quantity quantity_type percentage pos.positionAmt mark))
         = .error e →
       ∃ failed' uncl',
         closeLoop gw quantity quantity_type percentage (pos :: rest)
             succ failed uncl =
           closeLoop gw quantity quantity_type percentage rest
             succ failed' uncl')
    ∧ (∀ (gw : Gateway) (quantity : Option ℚ) (quantity_type : String)
       (percentage : Option ℚ) (pos : FutPosition) (rest : List FutPosition)
       (succ : List Order) (failed : List CloseFailRec)
       (uncl : List UnclosableRec) (e : String),
       ¬ pos.positionAmt = 0 →
       gw.futures_mark_price pos.symbol = .error e →
       closeLoop gw quantity quantity_type percentage (pos :: rest)
           succ failed uncl = .error e) := by
  constructor
  · intro gw quantity quantity_type percentage pos rest succ failed uncl mark e
      hamt hmark horder
    by_cases hsub : hasSub notionalErrText.toList e.toList = true
    · exact ⟨failed,
        uncl ++ [{ symbol := pos.symbol, notional := |pos.positionAmt * mark|
                   error := unclosableErrText }],
        by simp only [closeLoop, if_neg hamt, hmark, horder, if_pos hsub]⟩
    · exact ⟨failed ++ [{ symbol := pos.symbol, error := e }], uncl,
        by simp only [closeLoop, if_neg hamt, hmark, horder, if_neg hsub]⟩
  · intro gw quantity quantity_type percentage pos rest succ failed uncl e
      hamt hmark
    simp only [closeLoop, if_neg hamt, hmark]

/-- Gateway fixture for the C5 witness, submission-rejection half. -/
def gwC5w1 : Gateway where
  create_order := fun _ => .ok 9
  futures_create_order := fun _ => .error "rejected"
  futures_exchange_info := []
  futures_mark_price := fun _ => .ok 2
  futures_account := .ok []
  futures_change_leverage := fun _ _ => .ok 9

/-- Gateway fixture for the C5 witness, mark-price-failure half. -/
def gwC5w2 : Gateway where
  create_order := fun _ => .ok 9
  futures_create_order := fun _ => .ok 9
  futures_exchange_info := []
  futures_mark_price := fun _ => .error "down"
  futures_account := .ok []
  futures_change_leverage := fun _ _ => .ok 9

/-- C5 witness: concrete instances of both halves of the amended claim. -/
theorem C5_witness :
    (∃ failed' uncl',
      closeLoop gwC5w1 none "CONTRACTS" none [⟨"P", 1⟩, ⟨"Q", 1⟩] [] [] [] =
        closeLoop gwC5w1 none "CONTRACTS" none [⟨"Q", 1⟩] [] failed' uncl')
    ∧ closeLoop gwC5w2 none "CONTRACTS" none [⟨"P", 1⟩] [] [] [] =
        .error "down" := by
  constructor
  · exact C5_theorem.1 gwC5w1 none "CONTRACTS" none ⟨"P", 1⟩ [⟨"Q", 1⟩]
      [] [] [] 2 "rejected" (by decide) rfl rfl
  · exact C5_theorem.2 gwC5w2 none "CONTRACTS" none ⟨"P", 1⟩ []
      [] [] [] "down" (by decide) rfl

/-! ### Claim C6 -/

/-- C6: `close_quantity` follows the precedence
percentage > notional (USD) > fixed quantity > full position:
a supplied (truthy) `percentage` yields `|amt| * p / 100` whatever
`quantity`/`quantity_type` are supplied (and independently of the mark
price); otherwise a `USD` quantity yields `u / mark`; otherwise a
contracts quantity yields `q`; otherwise the full `|amt|`. -/
theorem C6_theorem (a m p u q : ℚ) :
    (¬ p = 0 → ∀ (quantity : Option ℚ) (quantity_type : String),
      closeQuantity quantity quantity_type (some p) a m = |a| * (p / 100)) ∧
    (¬ u = 0 → closeQuantity (some u) "USD" none a m = u / m) ∧
    (¬ q = 0 → closeQuantity (some q) "CONTRACTS" none a m = q) ∧
    (∀ quantity_type : String, closeQuantity none quantity_type none a m = |a|) := by
  have husd : (pyUpper "USD" == "USD") = true := by decide
  have hcon : (pyUpper "CONTRACTS" == "USD") = false := by decide
  refine ⟨?_, ?_, ?_, ?_⟩
  · intro hp quantity quantity_type
    simp [closeQuantity, pyTruthy, bne_iff_ne, hp]
  · intro hu
    simp [closeQuantity, pyTruthy, bne_iff_ne, hu, husd]
  · intro hq
    simp [closeQuantity, pyTruthy, bne_iff_ne, hq, hcon]
  · intro quantity_type
    simp [closeQuantity, pyTruthy]

/-- C6 witness: the spec's own examples — `Percentage(50)` on amount 10
gives 5 whatever the mark price; `FixedNotionalUsd(100)` at mark 50000
gives 0.002; a fixed quantity is returned as is; and with no policy
parameters the full absolute amount is closed. -/
theorem C6_witness :
    closeQuantity (some 7) "CONTRACTS" (some 50) 10 60000 = 5 ∧
    closeQuantity (some 100) "USD" none 2 50000 = 1 / 500 ∧
    closeQuantity (some (3 / 2)) "CONTRACTS" none 4 9 = 3 / 2 ∧
    closeQuantity none "XYZ" none (-6) 9 = 6 := by
  refine ⟨?_, ?_, ?_, ?_⟩
  · rw [(C6_theorem 10 60000 50 100 1).1 (by norm_num) (some 7) "CONTRACTS"]
    norm_num
  · rw [(C6_theorem 2 50000 1 100 1).2.1 (by norm_num)]
    norm_num
  · exact (C6_theorem 4 9 1 1 (3 / 2)).2.2.1 (by norm_num)
  · rw [(C6_theorem (-6) 9 1 1 1).2.2.2 "XYZ"]
    norm_num

/-! ### Claim C7 -/

/-- Gateway fixture whose instrument filters carry a zero stepSize. -/
def gwC7 : Gateway where
  create_order := fun _ => .ok 1
  futures_create_order := fun _ => .ok 1
  futures_exchange_info := [⟨"BTCUSDT", 0, 1 / 100⟩]
  futures_mark_price := fun _ => .ok 100
  futures_account := .ok []
  futures_change_leverage := fun _ _ => .ok 1

/-- Gateway fixture whose instrument filters carry a zero tickSize. -/
def gwC7t : Gateway where
  create_order := fun _ => .ok 1
  futures_create_order := fun _ => .ok 1
  futures_exchange_info := [⟨"ETHUSDT", 1, 0⟩]
  futures_mark_price := fun _ => .ok 100
  futures_account := .ok []
  futures_change_leverage := fun _ _ => .ok 1

/-- C7 (the code as written): a zero stepSize (resp. a zero tickSize on a
priced LIMIT order) makes the order path raise an uncaught
`ZeroDivisionError` from the floor-division `quantity // step_size`
(resp. `price // tick_size`); no `InvalidInstrumentFilter` validation
exists anywhere on the path. -/
theorem C7_theorem :
    place_futures_order gwC7 ⟨[], []⟩ "BTCUSDT" "BUY" 1 none
        "MARKET" "CONTRACTS" = .error PyExc.zeroDivision ∧
    place_futures_order gwC7t ⟨[], []⟩ "ETHUSDT" "BUY" 1 (some 5)
        "LIMIT" "CONTRACTS" = .error PyExc.zeroDivision := by
  exact ⟨by decide, by decide⟩

/-! ### Claim C8 -/

/-- Gateway fixture that accepts every leverage change with payload 42. -/
def gwC8 : Gateway where
  create_order := fun _ => .ok 1
  futures_create_order := fun _ => .ok 1
  futures_exchange_info := []
  futures_mark_price := fun _ => .ok 1
  futures_account := .ok []
  futures_change_leverage := fun _ _ => .ok 42

/-- Gateway fixture that rejects every leverage change. -/
def gwC8r : Gateway where
  create_order := fun _ => .ok 1
  futures_create_order := fun _ => .ok 1
  futures_exchange_info := []
  futures_mark_price := fun _ => .ok 1
  futures_account := .ok []
  futures_change_leverage := fun _ _ => .error "bad leverage"

/-- C8 (the code as written): `change_leverage` performs no local
validation — with leverage `-1` the gateway is still consulted and the
outcome is whatever the gateway answers (its confirmation on acceptance,
`None` on rejection); there is no local `InvalidLeverage` failure. -/
theorem C8_theorem :
    change_leverage gwC8 "BTCUSDT" (-1) = some 42 ∧
    change_leverage gwC8r "BTCUSDT" (-1) = none :=
  ⟨rfl, rfl⟩

/-! ### Claim C10 -/

/-- C10: when the initial `futures_account()` fetch fails with a gateway
error, `close_futures_positions` returns the triple `(None, None, None)`
rather than three lists. -/
theorem C10_theorem (gw : Gateway) (symbol : Option String)
    (quantity : Option ℚ) (quantity_type : String) (percentage : Option ℚ)
    (e : String) (h : gw.futures_account = .error e) :
    close_futures_positions gw symbol quantity quantity_type percentage =
      (none, none, none) := by
  simp only [close_futures_positions, h]

/-- Gateway fixture whose account fetch is down. -/
def gwC10 : Gateway where
  create_order := fun _ => .ok 1
  futures_create_order := fun _ => .ok 1
  futures_exchange_info := []
  futures_mark_price := fun _ => .ok 1
  futures_account := .error "account down"
  futures_change_leverage := fun _ _ => .ok 1

/-- C10 witness: a concrete failing account fetch yields the none-triple. -/
theorem C10_witness :
    close_futures_positions gwC10 none none "CONTRACTS" none =
      (none, none, none) :=
  C10_theorem gwC10 none none "CONTRACTS" none "account down" rfl

/-! ### Claim C9 -/

/-- Gateway fixture for the C9 counterexample: stepSize 0.1 and an
always-rejecting futures order endpoint. -/
def gwC9 : Gateway where
  create_order := fun _ => .ok 1
  futures_create_order := fun _ => .error "err"
  futures_exchange_info := [⟨"BTCUSDT", 1 / 10, 1 / 100⟩]
  futures_mark_price := fun _ => .ok 100
  futures_account := .ok []
  futures_change_leverage := fun _ _ => .ok 1

/-- C9 counterexample: a futures order for quantity 0.15 on a stepSize-0.1
instrument is rejected by the gateway; the recorded failure carries
quantity 0.1 — the value after floor-rounding — not the caller's 0.15, so
the Failure does not carry the quantity as submitted by the caller. -/
theorem C9_counterexample :
    place_futures_order gwC9 ⟨[], []⟩ "BTCUSDT" "BUY" (3 / 20) none
        "MARKET" "CONTRACTS" =
      .ok ({ successful_orders := []
             failed_orders := [.fut { symbol := "BTCUSDT", side := "BUY"
                                      quantity := 1 / 10, price := none
                                      error := "err" }] }, none)
    ∧ ¬ ((1 : ℚ) / 10 = 3 / 20) := by
  have hq : roundStep (3 / 20) (1 / 10) = 1 / 10 := by
    rw [show ((1 : ℚ) / 10) = (10 : ℚ) ^ (-1 : ℤ) from by norm_num,
      roundStep_zpow]
    norm_num
  constructor
  · have hfind : List.find? (fun info => info.symbol == pyUpper "BTCUSDT")
        ([{ symbol := "BTCUSDT", stepSize := 1 / 10, tickSize := 1 / 100 }] :
          List SymbolInfo) =
        some { symbol := "BTCUSDT", stepSize := 1 / 10, tickSize := 1 / 100 } :=
      rfl
    have husd : ¬ ((pyUpper "CONTRACTS" == "USD") = true) := by decide
    have hs0 : ¬ ((1 : ℚ) / 10 = 0) := by norm_num
    have hpt : ¬ (pyTruthy (none : Option ℚ) = true) := by decide
    simp only [place_futures_order, gwC9, hfind, if_neg husd, roundFut,
      if_neg hs0, if_neg hpt, submitFut, hq, List.nil_append]
  · norm_num

/-- C9 (amended): on a gateway-rejected order the recorded Failure carries
the original symbol and side and the raw error text in every path; the
spot path (`place_order`) also records the caller's size and price
unchanged, while the futures path (`place_futures_order`) records the
`quantity` and `price` locals as rebound before submission — the quantity
after the step-size floor-rounding (applied to `quantity / markPrice`
when the quantity unit is USD) and the price after the tick-size
floor-rounding when a truthy price was passed — not the values as
submitted by the caller. -/
theorem C9_theorem :
    (∀ (gw : Gateway) (st : OMSState) (symbol side : String)
       (size price : ℚ) (order_type e : String),
       gw.create_order (spotParamsOf symbol side size price order_type) =
         .error e →
       place_order gw st symbol side size price order_type =
         { st with failed_orders := st.failed_orders ++
             [.spot { symbol := symbol, side := side, size := size
                      price := price, error := e }] })
    ∧ (∀ (gw : Gateway) (st : OMSState) (symbol side : String)
       (quantity : ℚ) (price : Option ℚ)
       (order_type quantity_type e : String) (info : SymbolInfo),
       gw.futures_exchange_info.find?
         (fun i => i.symbol == pyUpper symbol) = some info →
       ¬ ((pyUpper quantity_type == "USD") = true) →
       ¬ info.stepSize = 0 →
       (pyTruthy price = true → ¬ info.tickSize = 0) →
       gw.futures_create_order (futParamsOf symbol side
         (roundStep quantity info.stepSize)
         (roundPrice price info.tickSize) order_type) = .error e →
       place_futures_order gw st symbol side quantity price
           order_type quantity_type =
         .ok ({ st with failed_orders := st.failed_orders ++
             [.fut { symbol := symbol, side := side
                     quantity := roundStep quantity info.stepSize
                     price := roundPrice price info.tickSize
                     error := e }] }, none))
    ∧ (∀ (gw : Gateway) (st : OMSState) (symbol side : String)
       (quantity : ℚ) (price : Option ℚ)
       (order_type quantity_type e : String) (info : SymbolInfo) (mark : ℚ),
       gw.futures_exchange_info.find?
         (fun i => i.symbol == pyUpper symbol) = some info →
       (pyUpper quantity_type == "USD") = true →
       gw.futures_mark_price symbol = .ok mark →
       ¬ mark = 0 →
       ¬ info.stepSize = 0 →
       (pyTruthy price = true → ¬ info.tickSize = 0) →
       gw.futures_create_order (futParamsOf symbol side
         (roundStep (quantity / mark) info.stepSize)
         (roundPrice price info.tickSize) order_type) = .error e →
       place_futures_order gw st symbol side quantity price
           order_type quantity_type =
         .ok ({ st with failed_orders := st.failed_orders ++
             [.fut { symbol := symbol, side := side
                     quantity := roundStep (quantity / mark) info.stepSize
                     price := roundPrice price info.tickSize
                     error := e }] }, none)) := by
  have hround : ∀ (gw : Gateway) (st : OMSState) (symbol side : String)
      (q1 : ℚ) (price : Option ℚ) (order_type : String)
      (step tick : ℚ) (e : String),
      ¬ step = 0 →
      (pyTruthy price = true → ¬ tick = 0) →
      gw.futures_create_order (futParamsOf symbol side
        (roundStep q1 step) (roundPrice price tick) order_type) = .error e →
      roundFut gw st symbol side q1 price order_type step tick =
        .ok ({ st with failed_orders := st.failed_orders ++
            [.fut { symbol := symbol, side := side
                    quantity := roundStep q1 step
                    price := roundPrice price tick, error := e }] }, none) := by
    intro gw st symbol side q1 price order_type step tick e hstep htick horder
    by_cases hp : pyTruthy price = true
    · have hrp : roundPrice price tick =
          some (roundStep (price.getD 0) tick) := by
        simp [roundPrice, hp]
      rw [hrp] at horder ⊢
      simp only [roundFut, if_neg hstep, if_pos hp, if_neg (htick hp),
        submitFut, horder]
    · have hrp : roundPrice price tick = price := by
        simp [roundPrice, hp]
      rw [hrp] at horder ⊢
      simp only [roundFut, if_neg hstep, if_neg hp, submitFut, horder]
  refine ⟨?_, ?_, ?_⟩
  · intro gw st symbol side size price order_type e horder
    simp only [place_order, horder]
  · intro gw st symbol side quantity price order_type quantity_type e info
      hfind hqt hstep htick horder
    have h := hround gw st symbol side quantity price order_type
      info.stepSize info.tickSize e hstep htick horder
    simp only [place_futures_order, hfind, if_neg hqt]
    exact h
  · intro gw st symbol side quantity price order_type quantity_type e info
      mark hfind hqt hmark hm0 hstep htick horder
    have h := hround gw st symbol side (quantity / mark) price order_type
      info.stepSize info.tickSize e hstep htick horder
    simp only [place_futures_order, hfind, if_pos hqt, hmark, if_neg hm0]
    exact h

/-- Gateway fixture for the C9 witness: every order endpoint rejects with
message `bad`; stepSize 1. -/
def gwC9w : Gateway where
  create_order := fun _ => .error "bad"
  futures_create_order := fun _ => .error "bad"
  futures_exchange_info := [⟨"BTCUSDT", 1, 1⟩]
  futures_mark_price := fun _ => .ok 100
  futures_account := .ok []
  futures_change_leverage := fun _ _ => .ok 1

/-- C9 witness: concrete rejected orders on every path.  The spot record
keeps size 2 and price 30 as submitted; the futures CONTRACTS record keeps
the (here rounding-invariant) quantity 7 and tick-rounded price 30; the
futures USD record keeps the converted quantity 700 / 100 = 7 and the
tick-rounded price 30, each with the raw error text. -/
theorem C9_witness :
    place_order gwC9w ⟨[], []⟩ "ETHUSDT" "Sell" 2 30 "LIMIT" =
      { successful_orders := []
        failed_orders := [.spot { symbol := "ETHUSDT", side := "Sell"
                                  size := 2, price := 30, error := "bad" }] }
    ∧ place_futures_order gwC9w ⟨[], []⟩ "BTCUSDT" "BUY" 7 (some 30)
        "LIMIT" "CONTRACTS" =
      .ok ({ successful_orders := []
             failed_orders := [.fut { symbol := "BTCUSDT", side := "BUY"
                                      quantity := 7, price := some 30
                                      error := "bad" }] }, none)
    ∧ place_futures_order gwC9w ⟨[], []⟩ "BTCUSDT" "SELL" 700 (some 30)
        "LIMIT" "USD" =
      .ok ({ successful_orders := []
             failed_orders := [.fut { symbol := "BTCUSDT", side := "SELL"
                                      quantity := 7, price := some 30
                                      error := "bad" }] }, none) := by
  have h71 : roundStep 7 (1 : ℚ) = 7 := by
    rw [show (1 : ℚ) = (10 : ℚ) ^ (0 : ℤ) from by norm_num, roundStep_zpow]
    norm_num
  have h301 : roundStep 30 (1 : ℚ) = 30 := by
    rw [show (1 : ℚ) = (10 : ℚ) ^ (0 : ℤ) from by norm_num, roundStep_zpow]
    norm_num
  have hrp : roundPrice (some 30) (1 : ℚ) = some 30 := by
    have hpt : pyTruthy (some (30 : ℚ)) = true := by decide
    simp [roundPrice, hpt, h301]
  refine ⟨?_, ?_, ?_⟩
  · exact C9_theorem.1 gwC9w ⟨[], []⟩ "ETHUSDT" "Sell" 2 30 "LIMIT" "bad" rfl
  · have h := C9_theorem.2.1 gwC9w ⟨[], []⟩ "BTCUSDT" "BUY" 7 (some 30)
      "LIMIT" "CONTRACTS" "bad" ⟨"BTCUSDT", 1, 1⟩ rfl (by decide) (by decide)
      (fun _ => by decide) rfl
    rw [h]
    norm_num [h71, hrp]
  · have h := C9_theorem.2.2 gwC9w ⟨[], []⟩ "BTCUSDT" "SELL" 700 (some 30)
      "LIMIT" "USD" "bad" ⟨"BTCUSDT", 1, 1⟩ 100 rfl (by decide) rfl
      (by norm_num) (by decide) (fun _ => by decide) rfl
    rw [h]
    norm_num [h71, hrp]
